import Mathlib

/-!
Verification of the hhr-portal batch resume-scoring pipeline.

The definitions below are a shallow embedding of the scoring pipeline of the
repository, chiefly `startAnalysis`, `removeFile` and the candidate-record
construction in `src/pages/ResumeScore.tsx`, the gateway contract of
`src/services/ai.ts`, and the two job-context variants of the page kept in
`src/unnamed/part_000` (a variant with a `jobSource` toggle whose per-item
job-statistics update re-fetches the job, lines 179-189, and a variant with a
`jdSource` toggle whose JD-extraction step precedes the loop, lines 908-970).
External effects (the Gemini calls and the database writes) are modelled by
outcome oracles: one `ItemOutcome` per queue index giving the result of the
analysis call, the candidate insert and the job-statistics update.
-/

namespace HhrPortal

/-- Untyped JSON-ish value as delivered by `JSON.parse` of the Gemini response
in `analyzeResume` (`src/services/ai.ts` line 279): the parsed fields are not
validated, so any field may be a number, a string, a boolean, `null`, or
absent (`undef`). -/
inductive RawVal where
  | num (n : Int)
  | str (s : String)
  | bool (b : Bool)
  | null
  | undef
deriving DecidableEq, Repr

/-- JavaScript truthiness of a `RawVal`: `0`, `""`, `false`, `null` and
`undefined` are falsy, everything else is truthy. -/
def jsTruthy : RawVal → Bool
  | .num n => n != 0
  | .str s => s != ""
  | .bool b => b
  | .null => false
  | .undef => false

/-- Numeric value of a decimal-digit string, used to model JavaScript
`Number(s)` on the string fragment that actually occurs here: `Number("")` is
`0`, a non-empty all-digit string is its decimal value, and anything else is
`NaN` (`none`). -/
def strToNum (s : String) : Option Int :=
  if s = "" then some 0
  else if s.toList.all (fun c => c.isDigit) then
    some (s.toList.foldl (fun a c => a * 10 + (Int.ofNat (c.toNat - '0'.toNat))) 0)
  else none

/-- JavaScript `Number(v)`; `none` stands for `NaN`. -/
def jsToNumber : RawVal → Option Int
  | .num n => some n
  | .str s => strToNum s
  | .bool b => some (if b then 1 else 0)
  | .null => some 0
  | .undef => none

/-- JavaScript `Number(v) || 0` (`src/pages/ResumeScore.tsx` line 99): `NaN`
and `0` collapse to `0`, every other number passes through unchanged. -/
def jsNumberOr0 (v : RawVal) : Int :=
  (jsToNumber v).getD 0

/-- JavaScript `v || d` on an untyped value: the value itself when truthy,
else the default. -/
def jsOr (v d : RawVal) : RawVal :=
  if jsTruthy v then v else d

/-- JavaScript `v || d` where `v` is an optional string field (absent or the
empty string fall back to the default, as in `currentJob.location || 'Remote'`,
`src/pages/ResumeScore.tsx` line 111). -/
def jsOrStr (v : Option String) (d : String) : String :=
  match v with
  | some s => if s = "" then d else s
  | none => d

/-- Status of an `UploadFile` (`src/pages/ResumeScore.tsx` line 11). -/
inductive Status where
  | READY
  | READING
  | PARSING
  | COMPLETED
  | ERROR
deriving DecidableEq, Repr

/-- An item of the upload queue (`src/pages/ResumeScore.tsx` lines 6-14).
The browser `File` is modelled by its byte content (`content`, so
`file.size = content.length`) and MIME type (`fileType`, the source's
`file.type`); the display size string is presentation and omitted. -/
structure UploadFile where
  id : String
  name : String
  content : List Nat
  fileType : String
  status : Status
  progress : Nat
deriving DecidableEq, Repr

/-- A stored job record, with the fields the scoring pipeline reads or
writes. Counter fields are optional because the source guards them with
`|| 0`; `jobType` is the source's `type` field. -/
structure Job where
  id : String
  title : String
  department : String
  location : Option String
  jobType : String
  jobStatus : String
  applicantsCount : Option Nat
  matchesCount : Option Nat
  skills : Option (List String)
  description : Option String
deriving DecidableEq, Repr

/-- Ambient values the pipeline reads from the clock: `Date.now()` and the
formatted `toLocaleDateString` string. -/
structure Env where
  now : Nat
  today : String
deriving DecidableEq, Repr

/-- Kernel of `name.replace(/\.[^/.]+$/, "")` over the reversed character
list: strip a trailing run of non-dot non-slash characters together with the
dot right before it; if the string does not end in such a run preceded by a
dot, leave it unchanged. -/
def stripExtRev (r : List Char) : List Char :=
  let run := r.takeWhile (fun c => c ≠ '.' && c ≠ '/')
  match r.drop run.length with
  | '.' :: tail => if run.isEmpty then r else tail
  | _ => r

/-- JavaScript `name.replace(/\.[^/.]+$/, "")`: remove the final
dot-extension when present (`src/pages/ResumeScore.tsx` line 108). -/
def stripFinalExt (s : String) : String :=
  String.mk (stripExtRev s.toList.reverse).reverse

/-- JavaScript `s.replace(/[_-]/g, ' ')`: every underscore and hyphen becomes
a space (`src/pages/ResumeScore.tsx` line 108). -/
def replaceUnderscoreHyphen (s : String) : String :=
  String.mk (s.toList.map (fun c => if c = '_' || c = '-' then ' ' else c))

/-- Alphabet of standard base64. -/
def b64Table : List Char :=
  [ 'A', 'B', 'C', 'D', 'E', 'F', 'G', 'H', 'I', 'J', 'K', 'L', 'M',
    'N', 'O', 'P', 'Q', 'R', 'S', 'T', 'U', 'V', 'W', 'X', 'Y', 'Z',
    'a', 'b', 'c', 'd', 'e', 'f', 'g', 'h', 'i', 'j', 'k', 'l', 'm',
    'n', 'o', 'p', 'q', 'r', 's', 't', 'u', 'v', 'w', 'x', 'y', 'z',
    '0', '1', '2', '3', '4', '5', '6', '7', '8', '9', '+', '/' ]

/-- Digit of standard base64. -/
def b64Char (n : Nat) : Char :=
  b64Table.getD n 'A'

/-- Standard base64 of a byte list, modelling the payload part of the data
URL produced by `fileToBase64` (`src/services/ai.ts` lines 80-90): an empty
file encodes to the empty character list. -/
def base64Chunks : List Nat → List Char
  | [] => []
  | [b1] => [b64Char (b1 / 4 % 64), b64Char (b1 % 4 * 16), '=', '=']
  | [b1, b2] =>
      [b64Char (b1 / 4 % 64), b64Char (b1 % 4 * 16 + b2 / 16 % 16),
       b64Char (b2 % 16 * 4), '=']
  | b1 :: b2 :: b3 :: rest =>
      b64Char (b1 / 4 % 64) :: b64Char (b1 % 4 * 16 + b2 / 16 % 16) ::
      b64Char (b2 % 16 * 4 + b3 / 64 % 4) :: b64Char (b3 % 64) ::
      base64Chunks rest

/-- JavaScript `fileToBase64(file)` as a string. -/
def fileToBase64 (content : List Nat) : String :=
  String.mk (base64Chunks content)

/-- Raw analysis payload returned by the Analysis Gateway (`analyzeResume`,
`src/services/ai.ts` lines 273-282): the JSON is parsed and returned without
any validation or clamping, so every field is an untyped `RawVal`.  The
`candidateRecordScore` and `candidateRecordReason` fields are read by
`src/pages/ResumeScore.tsx` (lines 118 and 122) although the gateway schema
never requests them, so at run time they are `undefined`. -/
structure RawAnalysis where
  candidateName : RawVal
  currentRole : RawVal
  matchScore : RawVal
  analysis : RawVal
  jdMatchScore : RawVal
  qualificationMatchScore : RawVal
  resumeMatchScore : RawVal
  candidateRecordScore : RawVal
  jdMatchReason : RawVal
  qualificationMatchReason : RawVal
  resumeMatchReason : RawVal
  candidateRecordReason : RawVal
  deepAnalysis : RawVal
deriving DecidableEq, Repr

/-- Persisted candidate record, with exactly the fields assigned in
`src/pages/ResumeScore.tsx` lines 106-129.  Fields copied from the raw
analysis keep the type `RawVal` because the source stores them without
validation. -/
structure Candidate where
  id : String
  name : RawVal
  role : RawVal
  company : String
  location : String
  appliedDate : String
  status : String
  matchScore : Int
  jdMatchScore : RawVal
  qualificationMatchScore : RawVal
  resumeMatchScore : RawVal
  candidateRecordScore : RawVal
  jdMatchReason : RawVal
  qualificationMatchReason : RawVal
  resumeMatchReason : RawVal
  candidateRecordReason : RawVal
  deepAnalysis : RawVal
  associatedJdId : String
  analysis : RawVal
  resumeBase64 : String
  resumeMimeType : String
deriving DecidableEq, Repr

/-- Construction of the `newCandidate` object (`src/pages/ResumeScore.tsx`
lines 99 and 106-129), given the loop index `i`, the selected job id, the job
fetched before the loop, the current file and the gateway payload. -/
def buildCandidate (env : Env) (i : Nat) (selectedJobId : String)
    (currentJob : Job) (f : UploadFile) (data : RawAnalysis) : Candidate :=
  { id := "c-" ++ toString env.now ++ "-" ++ toString i
    name := jsOr data.candidateName
      (.str (replaceUnderscoreHyphen (stripFinalExt f.name)))
    role := jsOr data.currentRole (.str currentJob.title)
    company := "Extracted Profile"
    location := jsOrStr currentJob.location "Remote"
    appliedDate := env.today
    status := "New"
    matchScore := jsNumberOr0 data.matchScore
    jdMatchScore := jsOr data.jdMatchScore (.num 0)
    qualificationMatchScore := jsOr data.qualificationMatchScore (.num 0)
    resumeMatchScore := jsOr data.resumeMatchScore (.num 0)
    candidateRecordScore := jsOr data.candidateRecordScore (.num 0)
    jdMatchReason := jsOr data.jdMatchReason (.str "Analysis not available")
    qualificationMatchReason :=
      jsOr data.qualificationMatchReason (.str "Analysis not available")
    resumeMatchReason := jsOr data.resumeMatchReason (.str "Analysis not available")
    candidateRecordReason :=
      jsOr data.candidateRecordReason (.str "Analysis not available")
    deepAnalysis := data.deepAnalysis
    associatedJdId := selectedJobId
    analysis := data.analysis
    resumeBase64 :=
      if f.content.length < 1 * 1024 * 1024 then fileToBase64 f.content else ""
    resumeMimeType := f.fileType }

/-- The `removeFile` operation (`src/pages/ResumeScore.tsx` lines 48-50):
`setFiles(prev => prev.filter(f => f.id !== id))`. -/
def removeFile (fs : List UploadFile) (id : String) : List UploadFile :=
  fs.filter (fun f => f.id != id)

deriving instance DecidableEq for Except

/-- Outcome oracle for the three effectful calls the loop performs for one
item: the `analyzeResume` gateway call, `db.candidates.insertOne`, and
`db.jobs.updateOne`; an `Except.error` value is the message of the exception
the call would throw. -/
structure ItemOutcome where
  analysis : Except String RawAnalysis
  insertOutcome : Except String Unit
  updateOutcome : Except String Unit
deriving DecidableEq, Repr

/-- Truth value of an `Except` being the success case. -/
def exceptOk {ε α : Type} : Except ε α → Bool
  | .ok _ => true
  | .error _ => false

/-- JavaScript `err.message || 'Unknown error'` applied to a thrown message. -/
def jsErrMsg (e : String) : String :=
  if e = "" then "Unknown error" else e

/-- Fields of a successful `db.jobs.updateOne(currentJob.id, ...)` call:
target id, new `applicantsCount`, new `matchesCount`. -/
abbrev JobUpdate := String × Nat × Nat

/-- Observable result of processing one (non-skipped) item. -/
structure ItemResult where
  file : UploadFile
  trace : List (Status × Nat)
  persisted : Option Candidate
  updated : Option JobUpdate
  errMsg : Option String
deriving DecidableEq, Repr

/-- Parameters fixed for a whole batch run: ambient clock values, the job
fetched before the loop, and the selected job id. -/
structure Ctx where
  env : Env
  currentJob : Job
  selectedJobId : String
deriving DecidableEq, Repr

/-- Body of the per-item part of the loop in `startAnalysis`
(`src/pages/ResumeScore.tsx` lines 86-149), for an item that is not skipped:
the item is set to `READING` (progress 10) and then `PARSING` (progress 30);
if the gateway call throws the item becomes `ERROR` with progress 0 and an
error message is recorded; otherwise progress becomes 80, the candidate is
built and inserted (a throwing insert likewise yields `ERROR`), the job
statistics update runs on the stale pre-loop job snapshot (a throwing update
yields `ERROR`, with the candidate already persisted), and finally the item
becomes `COMPLETED` with progress 100.  The `trace` lists every
status/progress pair the item goes through, starting from its initial one. -/
def processItem (c : Ctx) (i : Nat) (f : UploadFile) (o : ItemOutcome) :
    ItemResult :=
  let t0 : List (Status × Nat) :=
    [(f.status, f.progress), (Status.READING, 10), (Status.PARSING, 30)]
  match o.analysis with
  | .error e =>
      { file := { f with status := Status.ERROR, progress := 0 }
        trace := t0 ++ [(Status.ERROR, 0)]
        persisted := none
        updated := none
        errMsg := some ("Failed to analyze " ++ f.name ++ ": " ++ jsErrMsg e) }
  | .ok data =>
      let t1 := t0 ++ [(Status.PARSING, 80)]
      let cand := buildCandidate c.env i c.selectedJobId c.currentJob f data
      match o.insertOutcome with
      | .error e =>
          { file := { f with status := Status.ERROR, progress := 0 }
            trace := t1 ++ [(Status.ERROR, 0)]
            persisted := none
            updated := none
            errMsg := some ("Failed to analyze " ++ f.name ++ ": " ++ jsErrMsg e) }
      | .ok _ =>
          match o.updateOutcome with
          | .error e =>
              { file := { f with status := Status.ERROR, progress := 0 }
                trace := t1 ++ [(Status.ERROR, 0)]
                persisted := some cand
                updated := none
                errMsg :=
                  some ("Failed to analyze " ++ f.name ++ ": " ++ jsErrMsg e) }
          | .ok _ =>
              { file := { f with status := Status.COMPLETED, progress := 100 }
                trace := t1 ++ [(Status.COMPLETED, 100)]
                persisted := some cand
                updated := some (c.currentJob.id,
                  c.currentJob.applicantsCount.getD 0 + 1,
                  if jsNumberOr0 data.matchScore > 80 then
                    c.currentJob.matchesCount.getD 0 + 1
                  else c.currentJob.matchesCount.getD 0)
                errMsg := none }

/-- Observable state accumulated by a batch run: the final queue, the
status/progress trace of every item, the persisted candidates, the successful
job-statistics updates, how many gateway calls were issued, how many times
the 3000 ms throttle delay was awaited, and every recorded item error
message (the source keeps only the most recent one in `errorMsg`; the list
records each `setErrorMsg` call of the loop in order). -/
structure RunAcc where
  files : List UploadFile
  traces : List (List (Status × Nat))
  inserted : List Candidate
  updates : List JobUpdate
  analysisCalls : Nat
  delays : Nat
  errorMsgs : List String
deriving DecidableEq, Repr

/-- The loop `for (let i = 0; i < files.length; i++)` of `startAnalysis`
(`src/pages/ResumeScore.tsx` lines 76-150): an item whose status is already
`COMPLETED` is skipped (`continue`) before the throttle, otherwise the 3000 ms
delay is awaited whenever `i > 0` and the item is processed. -/
def runItems (c : Ctx) (o : Nat → ItemOutcome) :
    Nat → List UploadFile → RunAcc → RunAcc
  | _, [], acc => acc
  | i, f :: rest, acc =>
      if f.status = Status.COMPLETED then
        runItems c o (i + 1) rest
          { acc with
            files := acc.files ++ [f]
            traces := acc.traces ++ [[(f.status, f.progress)]] }
      else
        let r := processItem c i f (o i)
        runItems c o (i + 1) rest
          { files := acc.files ++ [r.file]
            traces := acc.traces ++ [r.trace]
            inserted := acc.inserted ++ r.persisted.toList
            updates := acc.updates ++ r.updated.toList
            analysisCalls := acc.analysisCalls + 1
            delays := acc.delays + (if 0 < i then 1 else 0)
            errorMsgs := acc.errorMsgs ++ r.errMsg.toList }

/-- The whole scheduling loop of `startAnalysis` over the queue, after the
job context has been resolved (`src/pages/ResumeScore.tsx` lines 76-150). -/
def startAnalysisLoop (c : Ctx) (files : List UploadFile)
    (o : Nat → ItemOutcome) : RunAcc :=
  runItems c o 0 files ⟨[], [], [], [], 0, 0, []⟩

/-- Final queue entry contributed by the item at index `p.1`. -/
def fileAt (c : Ctx) (o : Nat → ItemOutcome) (p : Nat × UploadFile) :
    UploadFile :=
  if p.2.status = Status.COMPLETED then p.2
  else (processItem c p.1 p.2 (o p.1)).file

/-- Trace contributed by the item at index `p.1` (a skipped item keeps its
initial status/progress pair as a one-element trace). -/
def traceAt (c : Ctx) (o : Nat → ItemOutcome) (p : Nat × UploadFile) :
    List (Status × Nat) :=
  if p.2.status = Status.COMPLETED then [(p.2.status, p.2.progress)]
  else (processItem c p.1 p.2 (o p.1)).trace

/-- Candidates persisted for the item at index `p.1` (none or one). -/
def persAt (c : Ctx) (o : Nat → ItemOutcome) (p : Nat × UploadFile) :
    List Candidate :=
  if p.2.status = Status.COMPLETED then []
  else (processItem c p.1 p.2 (o p.1)).persisted.toList

/-- Successful job-statistics updates for the item at index `p.1`. -/
def updAt (c : Ctx) (o : Nat → ItemOutcome) (p : Nat × UploadFile) :
    List JobUpdate :=
  if p.2.status = Status.COMPLETED then []
  else (processItem c p.1 p.2 (o p.1)).updated.toList

/-- Error messages recorded for the item at index `p.1`. -/
def msgAt (c : Ctx) (o : Nat → ItemOutcome) (p : Nat × UploadFile) :
    List String :=
  if p.2.status = Status.COMPLETED then []
  else (processItem c p.1 p.2 (o p.1)).errMsg.toList

/-- Number of gateway calls issued for the item at index `p.1`. -/
def callAt (p : Nat × UploadFile) : Nat :=
  if p.2.status = Status.COMPLETED then 0 else 1

/-- Number of throttle delays awaited before the item at index `p.1`. -/
def delayAt (p : Nat × UploadFile) : Nat :=
  if p.2.status = Status.COMPLETED then 0 else if 0 < p.1 then 1 else 0

/-- Closed form of `runItems`: the loop is a per-index map/concatenation over
the indexed queue, so every observable of the run decomposes item by item. -/
theorem runItems_eq (c : Ctx) (o : Nat → ItemOutcome) (fs : List UploadFile) :
    ∀ (i : Nat) (acc : RunAcc),
    runItems c o i fs acc =
      { files := acc.files ++ (List.enumFrom i fs).map (fileAt c o)
        traces := acc.traces ++ (List.enumFrom i fs).map (traceAt c o)
        inserted := acc.inserted ++ (List.enumFrom i fs).flatMap (persAt c o)
        updates := acc.updates ++ (List.enumFrom i fs).flatMap (updAt c o)
        analysisCalls :=
          acc.analysisCalls + ((List.enumFrom i fs).map callAt).sum
        delays := acc.delays + ((List.enumFrom i fs).map delayAt).sum
        errorMsgs :=
          acc.errorMsgs ++ (List.enumFrom i fs).flatMap (msgAt c o) } := by
  induction fs with
  | nil =>
      intro i acc
      simp [runItems, List.enumFrom]
  | cons f fs ih =>
      intro i acc
      by_cases h : f.status = Status.COMPLETED
      · simp only [runItems, if_pos h, ih, List.enumFrom_cons, List.map_cons,
          List.flatMap_cons, List.sum_cons]
        simp [fileAt, traceAt, persAt, updAt, msgAt, callAt, delayAt, h,
          List.append_assoc, Nat.add_assoc]
      · simp only [runItems, if_neg h, ih, List.enumFrom_cons, List.map_cons,
          List.flatMap_cons, List.sum_cons]
        simp [fileAt, traceAt, persAt, updAt, msgAt, callAt, delayAt, h,
          List.append_assoc, Nat.add_assoc]

/-- Semantics of `db.jobs.updateOne(id, { applicantsCount: apps,
matchesCount: ms })` on the job store: set the two counter fields on every
job whose id matches. -/
def jsUpdateOne (store : List Job) (id : String) (apps ms : Nat) : List Job :=
  store.map (fun j =>
    if j.id = id then { j with applicantsCount := some apps, matchesCount := some ms }
    else j)

/-- Source of the job context in the `jobSource` variant of the page
(`src/unnamed/part_000` line 25): an existing database job or a freshly
uploaded job description. -/
inductive JobSrc where
  | database
  | upload
deriving DecidableEq, Repr

/-- The per-item job-statistics step of the `jobSource` variant
(`src/unnamed/part_000` lines 179-189): only when the job context came from
the database, re-fetch the job list, find the selected job, and if found
call `updateOne` with `applicantsCount` incremented and `matchesCount`
incremented exactly when the match score exceeds 80.  Returns the new store
and the number of `updateOne` calls issued. -/
def updateJobStats (jobSource : JobSrc) (store : List Job)
    (selectedJobId : String) (matchScore : Int) : List Job × Nat :=
  match jobSource with
  | .database =>
      match store.find? (fun j => decide (j.id = selectedJobId)) with
      | some currentJob =>
          (jsUpdateOne store currentJob.id
            (currentJob.applicantsCount.getD 0 + 1)
            (if matchScore > 80 then currentJob.matchesCount.getD 0 + 1
             else currentJob.matchesCount.getD 0), 1)
      | none => (store, 0)
  | .upload => (store, 0)

/-- Payload of `extractJobDetailsFromPDF` (`src/services/ai.ts` lines 44-50);
fields are optional because the caller guards each with `|| default`. -/
structure ExtractedJobDetails where
  title : Option String
  department : Option String
  location : Option String
  jobType : Option String
  skills : Option (List String)
deriving DecidableEq, Repr

/-- Source of the job context in the `jdSource` variant of the page
(`src/unnamed/part_000` line 876). -/
inductive JdSrc where
  | select
  | upload
deriving DecidableEq, Repr

/-- Observable result of one invocation of the `jdSource` variant of
`startAnalysis`: the loop observables plus the job records persisted by the
JD-extraction preamble. -/
structure BatchResult where
  files : List UploadFile
  traces : List (List (Status × Nat))
  inserted : List Candidate
  updates : List JobUpdate
  jobInserts : List Job
  analysisCalls : Nat
  delays : Nat
  errorMsgs : List String
deriving DecidableEq, Repr

/-- Job record synthesized from an extracted job description
(`src/unnamed/part_000` lines 930-941). -/
def buildJobFromJd (env : Env) (jdFileName : String)
    (jd : ExtractedJobDetails) : Job :=
  { id := "j-" ++ toString env.now
    title := jsOrStr jd.title "Uploaded Job Position"
    department := jsOrStr jd.department "General"
    location := some (jsOrStr jd.location "Remote")
    jobType := jsOrStr jd.jobType "Full-time"
    jobStatus := "Active"
    applicantsCount := some 0
    matchesCount := some 0
    skills := some (jd.skills.getD [])
    description := some ("Extracted from " ++ jdFileName) }

/-- The `jdSource` variant of `startAnalysis` (`src/unnamed/part_000` lines
908-1055): after the validation guard, when the JD is uploaded the extraction
capability runs before the loop — on a throw (or a throwing job insert) the
run stops with a single batch-level error, no job record persisted, no file
touched and no gateway call issued; on success the synthesized job record is
persisted and drives the loop.  In the select path the job is re-fetched
from the store and its absence likewise aborts the batch.  The loop body is
the one of `runItems`; the variant stores `associatedJdId: selectedJobId`
(`src/unnamed/part_000` line 1020) just like `src/pages/ResumeScore.tsx`. -/
def startAnalysisB (env : Env) (jdSource : JdSrc) (jdFile : Option String)
    (extraction : Except String ExtractedJobDetails)
    (jobInsertOutcome : Except String Unit) (selectedJobId : String)
    (store : List Job) (files : List UploadFile)
    (o : Nat → ItemOutcome) : BatchResult :=
  if selectedJobId = "" ∨ files = [] then
    { files := files, traces := [], inserted := [], updates := []
      jobInserts := [], analysisCalls := 0, delays := 0
      errorMsgs := ["Please select a job and upload at least one resume."] }
  else
    match jdSource, jdFile with
    | .upload, some jdFileName =>
        match extraction with
        | .error e =>
            { files := files, traces := [], inserted := [], updates := []
              jobInserts := [], analysisCalls := 0, delays := 0
              errorMsgs := ["Failed to extract job details: " ++ e] }
        | .ok jd =>
            let newJob := buildJobFromJd env jdFileName jd
            match jobInsertOutcome with
            | .error e =>
                { files := files, traces := [], inserted := [], updates := []
                  jobInserts := [], analysisCalls := 0, delays := 0
                  errorMsgs := ["Failed to extract job details: " ++ e] }
            | .ok _ =>
                let r := startAnalysisLoop ⟨env, newJob, selectedJobId⟩ files o
                { files := r.files, traces := r.traces
                  inserted := r.inserted, updates := r.updates
                  jobInserts := [newJob], analysisCalls := r.analysisCalls
                  delays := r.delays, errorMsgs := r.errorMsgs }
    | _, _ =>
        match store.find? (fun j => decide (j.id = selectedJobId)) with
        | none =>
            { files := files, traces := [], inserted := [], updates := []
              jobInserts := [], analysisCalls := 0, delays := 0
              errorMsgs :=
                ["The selected job could not be found in the database. Please refresh."] }
        | some currentJob =>
            let r := startAnalysisLoop ⟨env, currentJob, selectedJobId⟩ files o
            { files := r.files, traces := r.traces
              inserted := r.inserted, updates := r.updates
              jobInserts := [], analysisCalls := r.analysisCalls
              delays := r.delays, errorMsgs := r.errorMsgs }

/-- Truth value of every effectful call of one item succeeding. -/
def itemAllOk (oi : ItemOutcome) : Bool :=
  exceptOk oi.analysis && exceptOk oi.insertOutcome && exceptOk oi.updateOutcome

/-- Truth value of the failure mode singled out by the spec: analysis and
candidate insert succeed but the job-statistics update throws. -/
def statsFailAfterInsert (oi : ItemOutcome) : Bool :=
  exceptOk oi.analysis && exceptOk oi.insertOutcome && !exceptOk oi.updateOutcome

/-- Number of items that reach `COMPLETED` during a run: initial status not
`COMPLETED`, final status `COMPLETED`, counted over the zipped queues. -/
def completedNewCount (initial final : List UploadFile) : Nat :=
  List.countP
    (fun p => decide (p.1.status ≠ Status.COMPLETED) &&
      decide (p.2.status = Status.COMPLETED))
    (initial.zip final)

/-- Adjacency property of a trace: a step into `ERROR` only ever leaves
`READING` or `PARSING`. -/
def errorEntryOk (a b : Status × Nat) : Prop :=
  b.1 = Status.ERROR → a.1 = Status.READING ∨ a.1 = Status.PARSING

theorem processItem_fail (c : Ctx) (i : Nat) (f : UploadFile)
    (oi : ItemOutcome) (h : itemAllOk oi = false) :
    (processItem c i f oi).file = { f with status := Status.ERROR, progress := 0 } ∧
    ∃ m, (processItem c i f oi).errMsg = some m := by
  rcases oi with ⟨a, ins, upd⟩
  cases a <;> cases ins <;> cases upd <;>
    simp_all [processItem, itemAllOk, exceptOk]

theorem persAt_length (c : Ctx) (o : Nat → ItemOutcome) (p : Nat × UploadFile) :
    (persAt c o p).length =
      if p.2.status = Status.COMPLETED then 0
      else if (exceptOk (o p.1).analysis && exceptOk (o p.1).insertOutcome) = true
        then 1 else 0 := by
  by_cases hc : p.2.status = Status.COMPLETED
  · simp [persAt, hc]
  · cases ha : (o p.1).analysis <;> cases hi : (o p.1).insertOutcome <;>
      cases hu : (o p.1).updateOutcome <;>
      simp [persAt, processItem, hc, ha, hi, hu, exceptOk]

theorem fileAt_status (c : Ctx) (o : Nat → ItemOutcome) (p : Nat × UploadFile) :
    (fileAt c o p).status =
      if p.2.status = Status.COMPLETED then p.2.status
      else if itemAllOk (o p.1) = true then Status.COMPLETED else Status.ERROR := by
  by_cases hc : p.2.status = Status.COMPLETED
  · simp [fileAt, hc]
  · cases ha : (o p.1).analysis <;> cases hi : (o p.1).insertOutcome <;>
      cases hu : (o p.1).updateOutcome <;>
      simp [fileAt, processItem, hc, ha, hi, hu, itemAllOk, exceptOk]

theorem zip_map_enumFrom {α β : Type} (fs : List α) (g : Nat × α → β) :
    ∀ n : Nat,
    fs.zip ((List.enumFrom n fs).map g) =
      (List.enumFrom n fs).map (fun p => (p.2, g p)) := by
  induction fs with
  | nil => intro n; simp
  | cons f t ih => intro n; simp [List.enumFrom_cons, ih (n + 1)]

theorem chain'_traceAt (c : Ctx) (o : Nat → ItemOutcome)
    (p : Nat × UploadFile) : List.Chain' errorEntryOk (traceAt c o p) := by
  by_cases hc : p.2.status = Status.COMPLETED
  · simp [traceAt, hc]
  · cases ha : (o p.1).analysis <;> cases hi : (o p.1).insertOutcome <;>
      cases hu : (o p.1).updateOutcome <;>
      simp [traceAt, processItem, hc, ha, hi, hu, errorEntryOk]

theorem sum_map_callAt_le (l : List (Nat × UploadFile)) :
    (l.map callAt).sum ≤ l.length := by
  induction l with
  | nil => simp
  | cons p t ih =>
      have hp : callAt p ≤ 1 := by unfold callAt; split <;> omega
      simp only [List.map_cons, List.sum_cons, List.length_cons]
      omega

theorem sum_map_delayAt (fs : List UploadFile)
    (h : ∀ f ∈ fs, f.status ≠ Status.COMPLETED) :
    ∀ n : Nat,
    ((List.enumFrom n fs).map delayAt).sum =
      if n = 0 then fs.length - 1 else fs.length := by
  induction fs with
  | nil => intro n; simp
  | cons f t ih =>
      intro n
      have hf : f.status ≠ Status.COMPLETED := h f (List.mem_cons_self f t)
      have ht := ih (fun g hg => h g (List.mem_cons_of_mem f hg))
      simp only [List.enumFrom_cons, List.map_cons, List.sum_cons, ht (n + 1),
        delayAt, if_neg hf]
      cases n with
      | zero => simp
      | succ k =>
          simp
          omega

theorem startAnalysisLoop_eq (c : Ctx) (files : List UploadFile)
    (o : Nat → ItemOutcome) :
    startAnalysisLoop c files o =
      { files := (List.enumFrom 0 files).map (fileAt c o)
        traces := (List.enumFrom 0 files).map (traceAt c o)
        inserted := (List.enumFrom 0 files).flatMap (persAt c o)
        updates := (List.enumFrom 0 files).flatMap (updAt c o)
        analysisCalls := ((List.enumFrom 0 files).map callAt).sum
        delays := ((List.enumFrom 0 files).map delayAt).sum
        errorMsgs := (List.enumFrom 0 files).flatMap (msgAt c o) } := by
  simp [startAnalysisLoop, runItems_eq]

theorem jsNumberOr0_num (n : Int) : jsNumberOr0 (.num n) = n := by
  simp [jsNumberOr0, jsToNumber]

theorem jsNumberOr0_falsy (v : RawVal) (h : jsTruthy v = false) :
    jsNumberOr0 v = 0 := by
  cases v <;> simp_all [jsTruthy, jsNumberOr0, jsToNumber, strToNum]

theorem jsOr_truthy (v d : RawVal) (h : jsTruthy v = true) : jsOr v d = v := by
  simp [jsOr, h]

theorem jsOr_falsy (v d : RawVal) (h : jsTruthy v = false) : jsOr v d = d := by
  simp [jsOr, h]

theorem base64Chunks_eq_nil_iff (l : List Nat) :
    base64Chunks l = [] ↔ l = [] := by
  match l with
  | [] => simp [base64Chunks]
  | [b1] => simp [base64Chunks]
  | [b1, b2] => simp [base64Chunks]
  | b1 :: b2 :: b3 :: rest => simp [base64Chunks]

theorem fileToBase64_eq_empty_iff (l : List Nat) :
    fileToBase64 l = "" ↔ l = [] := by
  constructor
  · intro h
    exact (base64Chunks_eq_nil_iff l).mp (congrArg String.data h)
  · intro h
    subst h
    rfl

theorem find?_jsUpdateOne (store : List Job) (id : String) (apps ms : Nat)
    (j : Job) (h : store.find? (fun jb => decide (jb.id = id)) = some j) :
    (jsUpdateOne store id apps ms).find? (fun jb => decide (jb.id = id)) =
      some { j with applicantsCount := some apps, matchesCount := some ms } := by
  induction store with
  | nil => simp [List.find?] at h
  | cons a t ih =>
      by_cases ha : a.id = id
      · rw [List.find?_cons_of_pos _ (by simp [ha])] at h
        obtain rfl : a = j := by injection h
        simp only [jsUpdateOne, List.map_cons, if_pos ha]
        rw [List.find?_cons_of_pos _ (by simp [ha])]
      · rw [List.find?_cons_of_neg _ (by simp [ha])] at h
        simp only [jsUpdateOne, List.map_cons, if_neg ha]
        rw [List.find?_cons_of_neg _ (by simp [ha])]
        exact ih h

/-- Truth value of an item reaching `COMPLETED` during the run: not skipped
and ending in `COMPLETED`. -/
def reachesCompletedB (c : Ctx) (o : Nat → ItemOutcome)
    (p : Nat × UploadFile) : Bool :=
  decide (p.2.status ≠ Status.COMPLETED) &&
    decide ((fileAt c o p).status = Status.COMPLETED)

theorem countP_reaches_le (c : Ctx) (o : Nat → ItemOutcome)
    (l : List (Nat × UploadFile)) :
    List.countP (reachesCompletedB c o) l ≤
      (l.map (List.length ∘ persAt c o)).sum := by
  induction l with
  | nil => simp
  | cons p t ih =>
      have hp : (if reachesCompletedB c o p = true then 1 else 0) ≤
          (persAt c o p).length := by
        rw [persAt_length]
        unfold reachesCompletedB
        rw [fileAt_status]
        by_cases hc : p.2.status = Status.COMPLETED
        · simp [hc]
        · cases hA : exceptOk (o p.1).analysis <;>
            cases hI : exceptOk (o p.1).insertOutcome <;>
            cases hU : exceptOk (o p.1).updateOutcome <;>
            simp [itemAllOk, hc, hA, hI, hU]
      simp only [List.countP_cons, List.map_cons, List.sum_cons,
        Function.comp_apply]
      omega

theorem countP_reaches_eq (c : Ctx) (o : Nat → ItemOutcome)
    (h : ∀ i, statsFailAfterInsert (o i) = false)
    (l : List (Nat × UploadFile)) :
    List.countP (reachesCompletedB c o) l =
      (l.map (List.length ∘ persAt c o)).sum := by
  induction l with
  | nil => simp
  | cons p t ih =>
      have hp : (if reachesCompletedB c o p = true then 1 else 0) =
          (persAt c o p).length := by
        rw [persAt_length]
        unfold reachesCompletedB
        rw [fileAt_status]
        have hsf := h p.1
        by_cases hc : p.2.status = Status.COMPLETED
        · simp [hc]
        · cases hA : exceptOk (o p.1).analysis <;>
            cases hI : exceptOk (o p.1).insertOutcome <;>
            cases hU : exceptOk (o p.1).updateOutcome <;>
            simp_all [itemAllOk, statsFailAfterInsert, hc]
      simp only [List.countP_cons, List.map_cons, List.sum_cons,
        Function.comp_apply]
      omega

/-! Concrete fixtures for witnesses and counterexamples. -/

def wEnv : Env := ⟨0, "Jan 1, 2026"⟩

def wJob : Job :=
  ⟨"j1", "Engineer", "Eng", some "NY", "Full-time", "Active",
   some 3, some 2, some ["Go", "SQL"], some "desc"⟩

def wCtx : Ctx := ⟨wEnv, wJob, "j1"⟩

def wData : RawAnalysis :=
  ⟨.str "Alice", .str "Dev", .num 91, .str "ok", .num 80, .num 70, .num 60,
   .undef, .str "r1", .str "r2", .str "r3", .undef, .null⟩

def wFile : UploadFile :=
  ⟨"f1", "cv_a.pdf", [1, 2, 3], "application/pdf", .READY, 0⟩

def wFileDone : UploadFile :=
  ⟨"f2", "done.pdf", [7], "application/pdf", .COMPLETED, 100⟩

def wOkO : Nat → ItemOutcome := fun _ => ⟨.ok wData, .ok (), .ok ()⟩

def wFailUpdO : Nat → ItemOutcome := fun _ => ⟨.ok wData, .ok (), .error "boom"⟩

def wMixO : Nat → ItemOutcome := fun i =>
  if i = 0 then ⟨.error "quota", .ok (), .ok ()⟩ else ⟨.ok wData, .ok (), .ok ()⟩

/-- C1 counterexample: in a one-item batch whose job-statistics update throws
after a successful candidate insert, one CandidateRecord is persisted while
zero items reach `COMPLETED`, so the claimed biconditional (and the claimed
count equality, which the claim asserts to hold "including when the
job-statistics update after the candidate insert fails") is false. -/
theorem c1_persistCompletedMismatch :
    (startAnalysisLoop wCtx [wFile] wFailUpdO).inserted.length = 1 ∧
    completedNewCount [wFile] (startAnalysisLoop wCtx [wFile] wFailUpdO).files = 0 := by
  decide

/-- C1 (amended): the number of items that reach `COMPLETED` never exceeds
the number of persisted CandidateRecords, and the two are equal whenever no
item's job-statistics update fails after a successful candidate insert; in
that failure mode the record is persisted although the item ends in `ERROR`. -/
theorem c1_persistedMatchesCompleted (c : Ctx) (files : List UploadFile)
    (o : Nat → ItemOutcome) :
    completedNewCount files (startAnalysisLoop c files o).files ≤
      (startAnalysisLoop c files o).inserted.length ∧
    ((∀ i, statsFailAfterInsert (o i) = false) →
      completedNewCount files (startAnalysisLoop c files o).files =
        (startAnalysisLoop c files o).inserted.length) := by
  have hf : (startAnalysisLoop c files o).files =
      (List.enumFrom 0 files).map (fileAt c o) := by rw [startAnalysisLoop_eq]
  have hi : (startAnalysisLoop c files o).inserted =
      (List.enumFrom 0 files).flatMap (persAt c o) := by rw [startAnalysisLoop_eq]
  unfold completedNewCount
  rw [hf, hi, zip_map_enumFrom, List.countP_map, List.length_flatMap]
  have hpred :
      ((fun p : UploadFile × UploadFile =>
          decide (p.1.status ≠ Status.COMPLETED) &&
            decide (p.2.status = Status.COMPLETED)) ∘
        (fun p : Nat × UploadFile => (p.2, fileAt c o p))) =
      reachesCompletedB c o := by
    funext p
    simp [reachesCompletedB, Function.comp]
  rw [hpred]
  exact ⟨countP_reaches_le c o _, fun h => countP_reaches_eq c o h _⟩

/-- C1 witness: on a concrete all-successful one-item batch the counts agree. -/
theorem c1_persistedMatchesCompletedWitness :
    completedNewCount [wFile] (startAnalysisLoop wCtx [wFile] wOkO).files =
      (startAnalysisLoop wCtx [wFile] wOkO).inserted.length :=
  (c1_persistedMatchesCompleted wCtx [wFile] wOkO).2 (fun _ => rfl)

/-- Gateway payload with an out-of-range overall score, a non-numeric
truthy sub-score and a negative sub-score, all of which the caller stores
without validation. -/
def wBadData : RawAnalysis :=
  ⟨.str "Bob", .undef, .num 150, .undef, .str "excellent", .num 50,
   .num (-7), .undef, .undef, .undef, .undef, .undef, .null⟩

def wBadO : Nat → ItemOutcome := fun _ => ⟨.ok wBadData, .ok (), .ok ()⟩

/-- C2 counterexample: a gateway payload with `matchScore: 150`,
`jdMatchScore: "excellent"` and `resumeMatchScore: -7` is persisted exactly
as returned — the stored overall score is 150 (outside `[0,100]`), a
non-numeric truthy sub-score is stored as-is, and a negative sub-score is
stored as-is, so the claimed clamping/validation does not happen. -/
theorem c2_noClampCounterexample :
    (startAnalysisLoop wCtx [wFile] wBadO).inserted.map
        (fun cd => cd.matchScore) = [150] ∧
    ¬ (150 : Int) ≤ 100 ∧
    (startAnalysisLoop wCtx [wFile] wBadO).inserted.map
        (fun cd => cd.jdMatchScore) = [RawVal.str "excellent"] ∧
    (startAnalysisLoop wCtx [wFile] wBadO).inserted.map
        (fun cd => cd.resumeMatchScore) = [RawVal.num (-7)] := by
  decide

/-- C2 (amended): the caller coerces the overall `matchScore` with
`Number(.) || 0` — a falsy or non-numeric value is stored as `0`, but any
non-zero numeric value, including values outside `[0,100]`, is stored
unchanged — and each sub-score is defaulted to `0` only when falsy,
otherwise stored exactly as returned (even when non-numeric); no clamping
to `[0,100]` is performed. -/
theorem c2_scoresPassThrough (env : Env) (i : Nat) (jid : String) (job : Job)
    (f : UploadFile) (data : RawAnalysis) :
    (∀ n : Int, data.matchScore = RawVal.num n →
      (buildCandidate env i jid job f data).matchScore = n) ∧
    (jsTruthy data.matchScore = false →
      (buildCandidate env i jid job f data).matchScore = 0) ∧
    (jsTruthy data.jdMatchScore = true →
      (buildCandidate env i jid job f data).jdMatchScore = data.jdMatchScore) ∧
    (jsTruthy data.jdMatchScore = false →
      (buildCandidate env i jid job f data).jdMatchScore = RawVal.num 0) ∧
    (jsTruthy data.qualificationMatchScore = true →
      (buildCandidate env i jid job f data).qualificationMatchScore =
        data.qualificationMatchScore) ∧
    (jsTruthy data.resumeMatchScore = true →
      (buildCandidate env i jid job f data).resumeMatchScore =
        data.resumeMatchScore) := by
  refine ⟨?_, ?_, ?_, ?_, ?_, ?_⟩
  · intro n hn
    simp [buildCandidate, hn, jsNumberOr0_num]
  · intro h
    simp [buildCandidate, jsNumberOr0_falsy _ h]
  · intro h
    simp [buildCandidate, jsOr_truthy _ _ h]
  · intro h
    simp [buildCandidate, jsOr_falsy _ _ h]
  · intro h
    simp [buildCandidate, jsOr_truthy _ _ h]
  · intro h
    simp [buildCandidate, jsOr_truthy _ _ h]

/-- C2 witness: the pass-through facts instantiated on the concrete
out-of-range payload. -/
theorem c2_scoresPassThroughWitness :
    (buildCandidate wEnv 0 "j1" wJob wFile wBadData).matchScore = 150 ∧
    (buildCandidate wEnv 0 "j1" wJob wFile wBadData).jdMatchScore =
      wBadData.jdMatchScore :=
  ⟨(c2_scoresPassThrough wEnv 0 "j1" wJob wFile wBadData).1 150 rfl,
   (c2_scoresPassThrough wEnv 0 "j1" wJob wFile wBadData).2.2.1 rfl⟩

/-- C3 counterexample: a re-run of a two-item batch whose second item is
already `COMPLETED` waits the throttle delay zero times, not N−1 = 1 times,
so the claimed "exactly N−1 delays, including re-runs with skipped items"
is false. -/
theorem c3_rerunSkipsDelay :
    (startAnalysisLoop wCtx [wFile, wFileDone] wOkO).delays = 0 ∧
    [wFile, wFileDone].length - 1 = 1 := by
  decide

/-- C3 (amended): the scheduler issues at most N analysis calls; the number
of throttle delays does not depend on any per-item outcome (so a failed item
still costs its delay); and for a batch in which no item is already
`COMPLETED` the delay is waited exactly N−1 times.  On a re-run, a skipped
already-`COMPLETED` item also skips its delay, so the N−1 count holds only
for batches with no pre-completed items. -/
theorem c3_throttleSchedule (c : Ctx) (files : List UploadFile)
    (o o' : Nat → ItemOutcome) :
    (startAnalysisLoop c files o).analysisCalls ≤ files.length ∧
    (startAnalysisLoop c files o).delays =
      (startAnalysisLoop c files o').delays ∧
    ((∀ f ∈ files, f.status ≠ Status.COMPLETED) →
      (startAnalysisLoop c files o).delays = files.length - 1) := by
  refine ⟨?_, ?_, ?_⟩
  · simp only [startAnalysisLoop_eq]
    calc ((List.enumFrom 0 files).map callAt).sum
        ≤ (List.enumFrom 0 files).length := sum_map_callAt_le _
      _ = files.length := List.enumFrom_length
  · simp only [startAnalysisLoop_eq]
  · intro h
    simp only [startAnalysisLoop_eq]
    simpa using sum_map_delayAt files h 0

/-- C3 witness: on a concrete fresh two-item batch there is exactly one
delay, two analysis calls at most, and the delay count ignores outcomes. -/
theorem c3_throttleScheduleWitness :
    (startAnalysisLoop wCtx [wFile, { wFile with id := "f9" }] wOkO).delays =
      [wFile, { wFile with id := "f9" }].length - 1 :=
  (c3_throttleSchedule wCtx [wFile, { wFile with id := "f9" }] wOkO wOkO).2.2
    (by decide)

def wFileB : UploadFile :=
  ⟨"f2x", "cv_b.pdf", [4], "application/pdf", .READY, 0⟩

def wFailAO : Nat → ItemOutcome := fun _ => ⟨.error "quota", .ok (), .ok ()⟩

/-- C4 (confirmed): when the item at index `i` is processed and any of its
effectful calls throws, exactly that item ends in `ERROR` with progress 0,
an error message for that failure is recorded, and every other item of the
batch is still processed according to its own outcome alone — one item's
failure never terminates the loop. -/
theorem c4_failureIsolation (c : Ctx) (files : List UploadFile)
    (o : Nat → ItemOutcome) (i : Nat) (f : UploadFile)
    (hf : files[i]? = some f) (hnc : f.status ≠ Status.COMPLETED)
    (hfail : itemAllOk (o i) = false) :
    (startAnalysisLoop c files o).files[i]? =
      some { f with status := Status.ERROR, progress := 0 } ∧
    (∃ m, (processItem c i f (o i)).errMsg = some m ∧
      m ∈ (startAnalysisLoop c files o).errorMsgs) ∧
    (∀ j g, j ≠ i → files[j]? = some g →
      (startAnalysisLoop c files o).files[j]? =
        some (if g.status = Status.COMPLETED then g
          else (processItem c j g (o j)).file)) := by
  have hfiles : (startAnalysisLoop c files o).files =
      (List.enumFrom 0 files).map (fileAt c o) := by rw [startAnalysisLoop_eq]
  have hget : ∀ (k : Nat) (g : UploadFile), files[k]? = some g →
      (startAnalysisLoop c files o).files[k]? = some (fileAt c o (k, g)) := by
    intro k g hg
    rw [hfiles, List.getElem?_map, List.getElem?_enumFrom, hg]
    simp
  refine ⟨?_, ?_, ?_⟩
  · rw [hget i f hf]
    have hfe := (processItem_fail c i f (o i) hfail).1
    simp [fileAt, hnc, hfe]
  · obtain ⟨m, hm⟩ := (processItem_fail c i f (o i) hfail).2
    refine ⟨m, hm, ?_⟩
    have hmem : (i, f) ∈ List.enumFrom 0 files := by
      apply List.getElem?_mem
      rw [List.getElem?_enumFrom, hf]
      simp
    have hmsgs : (startAnalysisLoop c files o).errorMsgs =
        (List.enumFrom 0 files).flatMap (msgAt c o) := by
      rw [startAnalysisLoop_eq]
    rw [hmsgs]
    exact List.mem_flatMap.mpr ⟨(i, f), hmem, by simp [msgAt, hnc, hm]⟩
  · intro j g _ hg
    rw [hget j g hg]
    simp [fileAt]

/-- C4 witness: in a concrete two-item batch whose first item's analysis
call throws, item 0 ends in `ERROR` with progress 0 and item 1 is still
processed normally. -/
theorem c4_failureIsolationWitness :
    (startAnalysisLoop wCtx [wFile, wFileB] wMixO).files[0]? =
      some { wFile with status := Status.ERROR, progress := 0 } ∧
    (startAnalysisLoop wCtx [wFile, wFileB] wMixO).files[1]? =
      some (if wFileB.status = Status.COMPLETED then wFileB
        else (processItem wCtx 1 wFileB (wMixO 1)).file) :=
  ⟨(c4_failureIsolation wCtx [wFile, wFileB] wMixO 0 wFile (by decide)
      (by decide) (by decide)).1,
   (c4_failureIsolation wCtx [wFile, wFileB] wMixO 0 wFile (by decide)
      (by decide) (by decide)).2.2 1 wFileB (by decide) (by decide)⟩

/-- C5 (confirmed): in the JD-upload variant, when the extraction capability
throws, the whole batch aborts before any scoring: the queue is returned
unchanged (no item leaves `READY` or any other state), no job record is
persisted, no candidate is persisted, no analysis call is issued, no delay
is waited, and exactly one batch-level error message is surfaced. -/
theorem c5_extractionAbort (env : Env) (jdFileName e selectedJobId : String)
    (jio : Except String Unit) (store : List Job) (files : List UploadFile)
    (o : Nat → ItemOutcome) (hid : selectedJobId ≠ "") (hfs : files ≠ []) :
    startAnalysisB env .upload (some jdFileName) (.error e) jio selectedJobId
        store files o =
      { files := files, traces := [], inserted := [], updates := []
        jobInserts := [], analysisCalls := 0, delays := 0
        errorMsgs := ["Failed to extract job details: " ++ e] } := by
  simp [startAnalysisB, hid, hfs]

/-- C5 witness: concrete aborted batch with a throwing extraction. -/
theorem c5_extractionAbortWitness :
    startAnalysisB wEnv .upload (some "jd.pdf") (.error "bad pdf") (.ok ())
        "j1" [wJob] [wFile] wOkO =
      { files := [wFile], traces := [], inserted := [], updates := []
        jobInserts := [], analysisCalls := 0, delays := 0
        errorMsgs := ["Failed to extract job details: " ++ "bad pdf"] } :=
  c5_extractionAbort wEnv "jd.pdf" "bad pdf" "j1" (.ok ()) [wJob] [wFile]
    wOkO (by decide) (by decide)

/-- C6 (confirmed): along every item's status/progress trace of a run,
every step into `ERROR` leaves `READING` or `PARSING`; an item never moves
from `READY` or `COMPLETED` directly to `ERROR`. -/
theorem c6_errorOnlyFromActive (c : Ctx) (files : List UploadFile)
    (o : Nat → ItemOutcome) :
    ∀ tr ∈ (startAnalysisLoop c files o).traces, List.Chain' errorEntryOk tr := by
  intro tr htr
  have htraces : (startAnalysisLoop c files o).traces =
      (List.enumFrom 0 files).map (traceAt c o) := by rw [startAnalysisLoop_eq]
  rw [htraces] at htr
  obtain ⟨p, -, rfl⟩ := List.mem_map.mp htr
  exact chain'_traceAt c o p

/-- C6 witness: the concrete trace of a failing item steps into `ERROR`
only from `PARSING`. -/
theorem c6_errorOnlyFromActiveWitness :
    List.Chain' errorEntryOk
      [(Status.READY, 0), (Status.READING, 10), (Status.PARSING, 30),
       (Status.ERROR, 0)] :=
  c6_errorOnlyFromActive wCtx [wFile] wFailAO
    [(Status.READY, 0), (Status.READING, 10), (Status.PARSING, 30),
     (Status.ERROR, 0)] (by decide)

/-- C7 (confirmed): the per-item statistics step of the `jobSource` variant,
which re-fetches the job, issues exactly one `updateOne` call when the job
context came from the database and the job is found: the stored applicant
counter becomes its previous value plus one unconditionally, and the stored
high-match counter is incremented exactly when the match score exceeds 80;
when the job context came from a freshly uploaded description the whole
update step is skipped and the store is untouched. -/
theorem c7_jobCounters (store : List Job) (selectedJobId : String) (ms : Int)
    (j : Job)
    (h : store.find? (fun jb => decide (jb.id = selectedJobId)) = some j) :
    updateJobStats .database store selectedJobId ms =
      (jsUpdateOne store j.id (j.applicantsCount.getD 0 + 1)
        (if ms > 80 then j.matchesCount.getD 0 + 1 else j.matchesCount.getD 0),
       1) ∧
    (updateJobStats .database store selectedJobId ms).1.find?
        (fun jb => decide (jb.id = selectedJobId)) =
      some { j with
        applicantsCount := some (j.applicantsCount.getD 0 + 1)
        matchesCount := some (if ms > 80 then j.matchesCount.getD 0 + 1
          else j.matchesCount.getD 0) } ∧
    updateJobStats .upload store selectedJobId ms = (store, 0) := by
  have hid : j.id = selectedJobId := by
    have := List.find?_some h
    simpa using this
  refine ⟨?_, ?_, rfl⟩
  · simp [updateJobStats, h]
  · simp only [updateJobStats, h]
    conv_lhs => rw [hid]
    exact find?_jsUpdateOne store selectedJobId _ _ j h

/-- C7 witness: with a stored counter pair (3, 2), a match score of 91
yields counters (4, 3), a match score of 79 yields (4, 2), and the upload
provenance leaves the store untouched. -/
theorem c7_jobCountersWitness :
    (updateJobStats .database [wJob] "j1" 91).1.find?
        (fun jb => decide (jb.id = "j1")) =
      some { wJob with
        applicantsCount := some (wJob.applicantsCount.getD 0 + 1)
        matchesCount := some (if (91 : Int) > 80 then wJob.matchesCount.getD 0 + 1
          else wJob.matchesCount.getD 0) } ∧
    (updateJobStats .database [wJob] "j1" 79).1.find?
        (fun jb => decide (jb.id = "j1")) =
      some { wJob with
        applicantsCount := some (wJob.applicantsCount.getD 0 + 1)
        matchesCount := some (if (79 : Int) > 80 then wJob.matchesCount.getD 0 + 1
          else wJob.matchesCount.getD 0) } ∧
    updateJobStats .upload [wJob] "j1" 91 = ([wJob], 0) :=
  ⟨(c7_jobCounters [wJob] "j1" 91 wJob (by decide)).2.1,
   (c7_jobCounters [wJob] "j1" 79 wJob (by decide)).2.1,
   (c7_jobCounters [wJob] "j1" 91 wJob (by decide)).2.2⟩

def wEmptyFile : UploadFile :=
  ⟨"f0", "empty.pdf", [], "application/pdf", .READY, 0⟩

/-- C8 counterexample: a successfully analyzed empty document (size 0, which
is below the 1 MiB threshold) is persisted with an empty `resumeBase64`,
because the base64 encoding of zero bytes is the empty string — so
"non-empty iff S < 1 MiB" is false at S = 0. -/
theorem c8_emptyFileCounterexample :
    wEmptyFile.content.length < 1048576 ∧
    (buildCandidate wEnv 0 "j1" wJob wEmptyFile wData).resumeBase64 = "" := by
  decide

/-- C8 (amended): the persisted `resumeBase64` is the document's base64
encoding exactly when the size is below 1 MiB and the empty string at or
above the threshold; consequently it is non-empty iff 0 < S < 1 MiB (an empty
document encodes to the empty string even below the threshold); and no other
field of the record depends on the document content. -/
theorem c8_sizePolicy (env : Env) (i : Nat) (jid : String) (job : Job)
    (f : UploadFile) (data : RawAnalysis) :
    ((buildCandidate env i jid job f data).resumeBase64 ≠ "" ↔
      (0 < f.content.length ∧ f.content.length < 1048576)) ∧
    (1048576 ≤ f.content.length →
      (buildCandidate env i jid job f data).resumeBase64 = "") ∧
    (∀ c' : List Nat,
      buildCandidate env i jid job { f with content := c' } data =
        { buildCandidate env i jid job f data with
          resumeBase64 := if c'.length < 1048576 then fileToBase64 c' else "" }) := by
  refine ⟨?_, ?_, ?_⟩
  · by_cases hlt : f.content.length < 1 * 1024 * 1024
    · have hth : f.content.length < 1048576 := by omega
      simp only [buildCandidate, if_pos hlt]
      rw [ne_eq, fileToBase64_eq_empty_iff]
      constructor
      · intro hne
        exact ⟨List.length_pos.mpr hne, hth⟩
      · intro hp
        exact List.length_pos.mp hp.1
    · simp only [buildCandidate, if_neg hlt]
      constructor
      · intro hne
        exact absurd rfl hne
      · intro hp
        omega
  · intro hge
    have : ¬ f.content.length < 1 * 1024 * 1024 := by omega
    simp [buildCandidate, this]
  · intro c'
    simp [buildCandidate]

/-- C8 witness: the size-policy facts instantiated at a concrete 3-byte
document. -/
theorem c8_sizePolicyWitness :
    ((buildCandidate wEnv 0 "j1" wJob wFile wData).resumeBase64 ≠ "" ↔
      (0 < wFile.content.length ∧ wFile.content.length < 1048576)) ∧
    (1048576 ≤ wFile.content.length →
      (buildCandidate wEnv 0 "j1" wJob wFile wData).resumeBase64 = "") :=
  ⟨(c8_sizePolicy wEnv 0 "j1" wJob wFile wData).1,
   (c8_sizePolicy wEnv 0 "j1" wJob wFile wData).2.1⟩

def wDoneItem : UploadFile :=
  ⟨"a", "done.pdf", [9], "application/pdf", .COMPLETED, 100⟩

/-- C9 counterexample: `removeFile` deletes an item whose status is
`COMPLETED`, so removal is not a no-op on completed items. -/
theorem c9_completedRemoved :
    wDoneItem.status = Status.COMPLETED ∧ removeFile [wDoneItem] "a" = [] := by
  decide

/-- C9 (amended): `removeFile id` deletes every queue item whose id equals
the given id regardless of its status — including items already `COMPLETED`
— keeps exactly the items with other ids, and is a no-op only when no item
carries the id. -/
theorem c9_removeById (fs : List UploadFile) (id : String) :
    (∀ f ∈ removeFile fs id, f.id ≠ id) ∧
    (∀ f ∈ fs, f.id ≠ id → f ∈ removeFile fs id) ∧
    ((∀ f ∈ fs, f.id ≠ id) → removeFile fs id = fs) := by
  refine ⟨?_, ?_, ?_⟩
  · intro f hf
    have := (List.mem_filter.mp hf).2
    simpa using this
  · intro f hf hne
    exact List.mem_filter.mpr ⟨hf, by simpa using hne⟩
  · intro h
    exact List.filter_eq_self.mpr (fun f hf => by simpa using h f hf)

/-- C9 witness: removal with an id carried by no item leaves the concrete
queue unchanged. -/
theorem c9_removeByIdWitness : removeFile [wFile] "zz" = [wFile] :=
  (c9_removeById [wFile] "zz").2.2 (by decide)

/-- Gateway payload whose candidate name is absent while the current role is
present. -/
def wNoNameData : RawAnalysis :=
  ⟨.undef, .str "Dev", .num 42, .str "ok", .num 10, .num 20, .num 30,
   .undef, .str "r1", .str "r2", .str "r3", .undef, .null⟩

/-- Gateway payload whose candidate name is present while the current role is
the empty string. -/
def wNoRoleData : RawAnalysis :=
  ⟨.str "Alice", .str "", .num 42, .str "ok", .num 10, .num 20, .num 30,
   .undef, .str "r1", .str "r2", .str "r3", .undef, .null⟩

def wNamedFile : UploadFile :=
  ⟨"f3", "john_doe.pdf", [1], "application/pdf", .READY, 0⟩

/-- C10 (confirmed): the two fallbacks hold independently — whenever the
gateway returns a missing or empty candidate name, the persisted record's
name is the file's display name with its final dot-extension removed and
every underscore and hyphen replaced by a space (regardless of the role
field); and whenever the current role is missing or empty, the record's role
falls back to the job's title (regardless of the name field). -/
theorem c10_nameRoleFallback (env : Env) (i : Nat) (jid : String) (job : Job)
    (f : UploadFile) (data : RawAnalysis) :
    ((data.candidateName = RawVal.undef ∨ data.candidateName = RawVal.str "") →
      (buildCandidate env i jid job f data).name =
        RawVal.str (replaceUnderscoreHyphen (stripFinalExt f.name))) ∧
    ((data.currentRole = RawVal.undef ∨ data.currentRole = RawVal.str "") →
      (buildCandidate env i jid job f data).role = RawVal.str job.title) := by
  constructor
  · intro hname
    rcases hname with h | h <;> simp [buildCandidate, jsOr, jsTruthy, h]
  · intro hrole
    rcases hrole with h | h <;> simp [buildCandidate, jsOr, jsTruthy, h]

/-- C10 witness: a file named `john_doe.pdf` with a nameless payload (whose
role is present) yields the candidate name "john doe", and a payload with an
empty role (whose name is present) yields the job's title as the role. -/
theorem c10_nameRoleFallbackWitness :
    (buildCandidate wEnv 0 "j1" wJob wNamedFile wNoNameData).name =
      RawVal.str (replaceUnderscoreHyphen (stripFinalExt "john_doe.pdf")) ∧
    (buildCandidate wEnv 0 "j1" wJob wNamedFile wNoRoleData).role =
      RawVal.str wJob.title :=
  ⟨(c10_nameRoleFallback wEnv 0 "j1" wJob wNamedFile wNoNameData).1
      (Or.inl rfl),
   (c10_nameRoleFallback wEnv 0 "j1" wJob wNamedFile wNoRoleData).2
      (Or.inr rfl)⟩

end HhrPortal
